import Mathlib

/-!
Verification of the CSS-selector builder of `src/objects-tasks.js`
(`class Selector` and the `cssSelectorBuilder` facade).

A `Selector` node mirrors the fields set up in the JS constructor.
The three counter fields of the constructor (`elementCount`, `idCount`,
`pseudoElementCount`) are initialised to 0 and never read or written again
anywhere in the source, so they are omitted from the embedding.
The `selectors` field is `[]` in the constructor and is only ever assigned
the two-element array `[selector1, selector2]` by `combine`, so it is
embedded as the two-constructor type `SelPair`.
-/

mutual

inductive Selector : Type where
  | mk (elementValue idValue : String)
       (classValues attrValues pseudoClassValues : List String)
       (pseudoElementValue combinator : String)
       (selectors : SelPair)
       (hasElement hasId hasPseudoElement : Bool)

inductive SelPair : Type where
  | nil
  | pair (left right : Selector)

end

namespace Selector

def elementValue : Selector → String
  | .mk el _ _ _ _ _ _ _ _ _ _ => el

def idValue : Selector → String
  | .mk _ idv _ _ _ _ _ _ _ _ _ => idv

def classValues : Selector → List String
  | .mk _ _ cls _ _ _ _ _ _ _ _ => cls

def attrValues : Selector → List String
  | .mk _ _ _ ats _ _ _ _ _ _ _ => ats

def pseudoClassValues : Selector → List String
  | .mk _ _ _ _ pcs _ _ _ _ _ _ => pcs

def pseudoElementValue : Selector → String
  | .mk _ _ _ _ _ pev _ _ _ _ _ => pev

def combinator : Selector → String
  | .mk _ _ _ _ _ _ comb _ _ _ _ => comb

def selectors : Selector → SelPair
  | .mk _ _ _ _ _ _ _ sel _ _ _ => sel

def hasElement : Selector → Bool
  | .mk _ _ _ _ _ _ _ _ hE _ _ => hE

def hasId : Selector → Bool
  | .mk _ _ _ _ _ _ _ _ _ hI _ => hI

def hasPseudoElement : Selector → Bool
  | .mk _ _ _ _ _ _ _ _ _ _ hP => hP

end Selector

/-- The state built by `new Selector()`. -/
def freshSelector : Selector :=
  .mk "" "" [] [] [] "" "" .nil false false false

/-- The two error kinds thrown by the part operations. -/
inductive SelErr : Type where
  | duplicate
  | outOfOrder
deriving DecidableEq

/-- The message string of each error, as thrown in the source. -/
def SelErr.message : SelErr → String
  | .duplicate =>
      "Element, id and pseudo-element should not occur more then one time inside the selector"
  | .outOfOrder =>
      "Selector parts should be arranged in the following order: element, id, class, attribute, pseudo-class, pseudo-element"

/-- Outcome of a mutating method call on a node.  A JS method either returns
normally with the mutated node (`ok`) or throws; a throw carries the state the
node is left in at the moment of the throw (`err`), since the object outlives
the exception. -/
inductive Res : Type where
  | ok (s : Selector)
  | err (e : SelErr) (exitState : Selector)

def Res.isOk : Res → Bool
  | .ok _ => true
  | .err _ _ => false

def Res.isDuplicateErr : Res → Bool
  | .err .duplicate _ => true
  | _ => false

def Res.isOutOfOrderErr : Res → Bool
  | .err .outOfOrder _ => true
  | _ => false

namespace Selector

/-- `Selector.prototype.element`. -/
def element : Selector → String → Res
  | .mk el idv cls ats pcs pev comb sel hE hI hP, value =>
    if hE then
      .err .duplicate (.mk el idv cls ats pcs pev comb sel hE hI hP)
    else if hI || cls.length != 0 || ats.length != 0 || pcs.length != 0 || hP then
      .err .outOfOrder (.mk el idv cls ats pcs pev comb sel hE hI hP)
    else
      .ok (.mk value idv cls ats pcs pev comb sel true hI hP)

/-- `Selector.prototype.id`. -/
def id : Selector → String → Res
  | .mk el idv cls ats pcs pev comb sel hE hI hP, value =>
    if hI then
      .err .duplicate (.mk el idv cls ats pcs pev comb sel hE hI hP)
    else if cls.length != 0 || ats.length != 0 || pcs.length != 0 || hP then
      .err .outOfOrder (.mk el idv cls ats pcs pev comb sel hE hI hP)
    else
      .ok (.mk el value cls ats pcs pev comb sel hE true hP)

/-- `Selector.prototype.class`. -/
def «class» : Selector → String → Res
  | .mk el idv cls ats pcs pev comb sel hE hI hP, value =>
    if ats.length != 0 || pcs.length != 0 || hP then
      .err .outOfOrder (.mk el idv cls ats pcs pev comb sel hE hI hP)
    else
      .ok (.mk el idv (cls ++ [value]) ats pcs pev comb sel hE hI hP)

/-- `Selector.prototype.attr`. -/
def attr : Selector → String → Res
  | .mk el idv cls ats pcs pev comb sel hE hI hP, value =>
    if pcs.length != 0 || hP then
      .err .outOfOrder (.mk el idv cls ats pcs pev comb sel hE hI hP)
    else
      .ok (.mk el idv cls (ats ++ [value]) pcs pev comb sel hE hI hP)

/-- `Selector.prototype.pseudoClass`. -/
def pseudoClass : Selector → String → Res
  | .mk el idv cls ats pcs pev comb sel hE hI hP, value =>
    if hP then
      .err .outOfOrder (.mk el idv cls ats pcs pev comb sel hE hI hP)
    else
      .ok (.mk el idv cls ats (pcs ++ [value]) pev comb sel hE hI hP)

/-- `Selector.prototype.pseudoElement`. -/
def pseudoElement : Selector → String → Res
  | .mk el idv cls ats pcs pev comb sel hE hI hP, value =>
    if hP then
      .err .duplicate (.mk el idv cls ats pcs pev comb sel hE hI hP)
    else
      .ok (.mk el idv cls ats pcs value comb sel hE hI true)

/-- `Selector.prototype.combine`: stores the two children and the combinator
on `this` and returns `this`.  The source contains no `throw`, so the
embedding is a total function into `Selector`. -/
def combine : Selector → Selector → String → Selector → Selector
  | .mk el idv cls ats pcs pev _ _ hE hI hP, s1, comb, s2 =>
    .mk el idv cls ats pcs pev comb (.pair s1 s2) hE hI hP

/-- `Selector.prototype.stringify`, as a pure rendering function.  The
`let`-chain of the simple branch mirrors the sequence of `+=` statements in
the source; a JS string is truthy exactly when it is nonempty, and
`this.classValues.length` is truthy exactly when the list is nonempty. -/
def stringify : Selector → String
  | .mk el idv cls ats pcs pev comb sel _ _ _ =>
    match sel with
    | .pair a b => stringify a ++ " " ++ comb ++ " " ++ stringify b
    | .nil =>
      let s0 : String := ""
      let s1 := if el != "" then s0 ++ el else s0
      let s2 := if idv != "" then s1 ++ ("#" ++ idv) else s1
      let s3 := if cls.length != 0 then
        s2 ++ String.join (cls.map fun c => "." ++ c) else s2
      let s4 := if ats.length != 0 then
        s3 ++ String.join (ats.map fun a => "[" ++ a ++ "]") else s3
      let s5 := if pcs.length != 0 then
        s4 ++ String.join (pcs.map fun p => ":" ++ p) else s4
      if pev != "" then s5 ++ ("::" ++ pev) else s5

/-- `Selector.prototype.stringify` with the node state threaded explicitly:
the second component is the state of the node after the call returns.  The
method only reads fields; in the combined branch it invokes `stringify` on
the two stored children, so their (unchanged) post-call states are stored
back into `selectors`. -/
def stringifyRun : Selector → String × Selector
  | .mk el idv cls ats pcs pev comb sel hE hI hP =>
    match sel with
    | .pair a b =>
      let ra := stringifyRun a
      let rb := stringifyRun b
      (ra.1 ++ " " ++ comb ++ " " ++ rb.1,
       .mk el idv cls ats pcs pev comb (.pair ra.2 rb.2) hE hI hP)
    | .nil =>
      (stringify (.mk el idv cls ats pcs pev comb .nil hE hI hP),
       .mk el idv cls ats pcs pev comb .nil hE hI hP)

end Selector

namespace cssSelectorBuilder

/-- Facade `cssSelectorBuilder.element`: allocates a fresh node and applies
the mutation to it. -/
def element (value : String) : Res := Selector.element freshSelector value

/-- Facade `cssSelectorBuilder.id`. -/
def id (value : String) : Res := Selector.id freshSelector value

/-- Facade `cssSelectorBuilder.class`. -/
def «class» (value : String) : Res := Selector.«class» freshSelector value

/-- Facade `cssSelectorBuilder.attr`. -/
def attr (value : String) : Res := Selector.attr freshSelector value

/-- Facade `cssSelectorBuilder.pseudoClass`. -/
def pseudoClass (value : String) : Res := Selector.pseudoClass freshSelector value

/-- Facade `cssSelectorBuilder.pseudoElement`. -/
def pseudoElement (value : String) : Res := Selector.pseudoElement freshSelector value

/-- Facade `cssSelectorBuilder.combine`. -/
def combine (s1 : Selector) (comb : String) (s2 : Selector) : Selector :=
  Selector.combine freshSelector s1 comb s2

end cssSelectorBuilder

/-- Modelled from the spec's rendering rule for the Simple variant:
concatenate, in fixed order, `element` (if set) + `#id` (if set) + `.class`
for each class in insertion order + `[attr]` for each attribute in insertion
order + `:pseudoClass` for each pseudo-class in insertion order +
`::pseudoElement` (if set), absent parts contributing nothing.  Per the
spec's "absent parts contribute nothing" note, a single-valued part is
rendered exactly when its supplied value is nonempty. -/
def specRenderSimple (s : Selector) : String :=
  (if s.elementValue ≠ "" then s.elementValue else "")
    ++ (if s.idValue ≠ "" then "#" ++ s.idValue else "")
    ++ String.join (s.classValues.map fun c => "." ++ c)
    ++ String.join (s.attrValues.map fun a => "[" ++ a ++ "]")
    ++ String.join (s.pseudoClassValues.map fun p => ":" ++ p)
    ++ (if s.pseudoElementValue ≠ "" then "::" ++ s.pseudoElementValue else "")

/-- The nodes obtainable from `new Selector()` by a valid (non-throwing)
sequence of the six part operations. -/
inductive BuiltByParts : Selector → Prop where
  | fresh : BuiltByParts freshSelector
  | element {s s' : Selector} {v : String} :
      BuiltByParts s → Selector.element s v = .ok s' → BuiltByParts s'
  | id {s s' : Selector} {v : String} :
      BuiltByParts s → Selector.id s v = .ok s' → BuiltByParts s'
  | cls {s s' : Selector} {v : String} :
      BuiltByParts s → Selector.«class» s v = .ok s' → BuiltByParts s'
  | attr {s s' : Selector} {v : String} :
      BuiltByParts s → Selector.attr s v = .ok s' → BuiltByParts s'
  | pseudoClass {s s' : Selector} {v : String} :
      BuiltByParts s → Selector.pseudoClass s v = .ok s' → BuiltByParts s'
  | pseudoElement {s s' : Selector} {v : String} :
      BuiltByParts s → Selector.pseudoElement s v = .ok s' → BuiltByParts s'

/-! ### Helper lemmas -/

theorem string_join_nil : String.join ([] : List String) = "" := rfl

/-- `stringify` with state threading returns the pure rendering and leaves
the node unchanged. -/
theorem stringifyRun_spec : ∀ s : Selector, Selector.stringifyRun s = (s.stringify, s)
  | .mk el idv cls ats pcs pev comb .nil hE hI hP => by
      simp [Selector.stringifyRun]
  | .mk el idv cls ats pcs pev comb (.pair a b) hE hI hP => by
      have ha := stringifyRun_spec a
      have hb := stringifyRun_spec b
      simp [Selector.stringifyRun, Selector.stringify, ha, hb]

/-- On a node whose `selectors` field is empty, `stringify` computes the
spec's simple-variant concatenation. -/
theorem stringify_of_selectors_nil (s : Selector) (h : s.selectors = .nil) :
    s.stringify = specRenderSimple s := by
  obtain ⟨el, idv, cls, ats, pcs, pev, comb, sel, hE, hI, hP⟩ := s
  cases sel with
  | pair a b => simp [Selector.selectors] at h
  | nil =>
    simp only [Selector.stringify, specRenderSimple, Selector.elementValue,
      Selector.idValue, Selector.classValues, Selector.attrValues,
      Selector.pseudoClassValues, Selector.pseudoElementValue,
      ne_eq, bne_iff_ne, List.length_eq_zero]
    rcases eq_or_ne el "" with h1 | h1 <;>
      rcases eq_or_ne idv "" with h2 | h2 <;>
      rcases eq_or_ne pev "" with h3 | h3 <;>
      rcases eq_or_ne cls ([] : List String) with h4 | h4 <;>
      rcases eq_or_ne ats ([] : List String) with h5 | h5 <;>
      rcases eq_or_ne pcs ([] : List String) with h6 | h6 <;>
      simp [h1, h2, h3, h4, h5, h6, String.empty_append, String.append_empty,
        String.append_assoc, string_join_nil]

/-- Structural invariant of nodes built by the part operations: the child
pair stays empty, and a single-valued part whose flag is unset still holds
its initial empty string. -/
theorem built_invariant {s : Selector} (h : BuiltByParts s) :
    s.selectors = .nil
      ∧ (s.hasElement = false → s.elementValue = "")
      ∧ (s.hasId = false → s.idValue = "")
      ∧ (s.hasPseudoElement = false → s.pseudoElementValue = "") := by
  induction h with
  | fresh =>
      simp [freshSelector, Selector.selectors, Selector.hasElement,
        Selector.hasId, Selector.hasPseudoElement, Selector.elementValue,
        Selector.idValue, Selector.pseudoElementValue]
  | element hb hop ih =>
      rename_i s s' v
      obtain ⟨el, idv, cls, ats, pcs, pev, comb, sel, hE, hI, hP⟩ := s
      simp only [Selector.element] at hop
      split at hop
      · exact absurd hop (by simp)
      · split at hop
        · exact absurd hop (by simp)
        · cases hop
          simp_all [Selector.selectors, Selector.hasElement, Selector.hasId,
            Selector.hasPseudoElement, Selector.elementValue, Selector.idValue,
            Selector.pseudoElementValue]
  | id hb hop ih =>
      rename_i s s' v
      obtain ⟨el, idv, cls, ats, pcs, pev, comb, sel, hE, hI, hP⟩ := s
      simp only [Selector.id] at hop
      split at hop
      · exact absurd hop (by simp)
      · split at hop
        · exact absurd hop (by simp)
        · cases hop
          simp_all [Selector.selectors, Selector.hasElement, Selector.hasId,
            Selector.hasPseudoElement, Selector.elementValue, Selector.idValue,
            Selector.pseudoElementValue]
  | cls hb hop ih =>
      rename_i s s' v
      obtain ⟨el, idv, cls, ats, pcs, pev, comb, sel, hE, hI, hP⟩ := s
      simp only [Selector.«class»] at hop
      split at hop
      · exact absurd hop (by simp)
      · cases hop
        simp_all [Selector.selectors, Selector.hasElement, Selector.hasId,
          Selector.hasPseudoElement, Selector.elementValue, Selector.idValue,
          Selector.pseudoElementValue]
  | attr hb hop ih =>
      rename_i s s' v
      obtain ⟨el, idv, cls, ats, pcs, pev, comb, sel, hE, hI, hP⟩ := s
      simp only [Selector.attr] at hop
      split at hop
      · exact absurd hop (by simp)
      · cases hop
        simp_all [Selector.selectors, Selector.hasElement, Selector.hasId,
          Selector.hasPseudoElement, Selector.elementValue, Selector.idValue,
          Selector.pseudoElementValue]
  | pseudoClass hb hop ih =>
      rename_i s s' v
      obtain ⟨el, idv, cls, ats, pcs, pev, comb, sel, hE, hI, hP⟩ := s
      simp only [Selector.pseudoClass] at hop
      split at hop
      · exact absurd hop (by simp)
      · cases hop
        simp_all [Selector.selectors, Selector.hasElement, Selector.hasId,
          Selector.hasPseudoElement, Selector.elementValue, Selector.idValue,
          Selector.pseudoElementValue]
  | pseudoElement hb hop ih =>
      rename_i s s' v
      obtain ⟨el, idv, cls, ats, pcs, pev, comb, sel, hE, hI, hP⟩ := s
      simp only [Selector.pseudoElement] at hop
      split at hop
      · exact absurd hop (by simp)
      · cases hop
        simp_all [Selector.selectors, Selector.hasElement, Selector.hasId,
          Selector.hasPseudoElement, Selector.elementValue, Selector.idValue,
          Selector.pseudoElementValue]

/-! ### Claims -/

/-- C1: for every Simple node built by a valid sequence of the six part
operations (arbitrary string arguments, the empty string included),
`stringify` returns exactly the spec's fixed-order concatenation of element,
`#id`, `.class`es, `[attr]`s, `:pseudoClass`es and `::pseudoElement`, absent
parts contributing nothing. -/
theorem built_stringify_eq_spec (s : Selector) (h : BuiltByParts s) :
    s.stringify = specRenderSimple s :=
  stringify_of_selectors_nil s (built_invariant h).1

theorem built_stringify_eq_spec_witness :
    BuiltByParts (Selector.mk "div" "main" ["container"] [] [] "" "" .nil true true false)
    ∧ (Selector.mk "div" "main" ["container"] [] [] "" "" .nil true true false).stringify
        = specRenderSimple
            (Selector.mk "div" "main" ["container"] [] [] "" "" .nil true true false) :=
  have hb : BuiltByParts
      (Selector.mk "div" "main" ["container"] [] [] "" "" .nil true true false) :=
    .cls (.id (.element .fresh rfl) rfl) rfl
  ⟨hb, built_stringify_eq_spec _ hb⟩

/-- C2: `combine(a, c, b).stringify()` is `a.stringify() + " " + c + " " +
b.stringify()` for every combinator string `c`; with the single-space token
the two sides end up separated by the documented three literal spaces, and
nested combines concatenate left-to-right by the same equation. -/
theorem combine_stringify_eq (t a b : Selector) (c : String) :
    (Selector.combine t a c b).stringify
        = a.stringify ++ " " ++ c ++ " " ++ b.stringify
    ∧ (Selector.combine t a " " b).stringify = a.stringify ++ "   " ++ b.stringify := by
  obtain ⟨el, idv, cls, ats, pcs, pev, comb, sel, hE, hI, hP⟩ := t
  constructor
  · simp [Selector.combine, Selector.stringify]
  · simp [Selector.combine, Selector.stringify, String.append_assoc]

/-- C6: `stringify` is a pure observation: the threaded-state version leaves
the node exactly as it was, its result is the pure rendering, and a second
render of the post-render node returns the identical string. -/
theorem stringify_pure (s : Selector) :
    (Selector.stringifyRun s).2 = s
    ∧ (Selector.stringifyRun ((Selector.stringifyRun s).2)).1 = (Selector.stringifyRun s).1
    ∧ (Selector.stringifyRun s).1 = s.stringify := by
  simp [stringifyRun_spec]

/-- C7: `combine` is total (its embedding returns a `Selector`, never an
error) and returns a node wrapping the two operands and the combinator,
whatever string the combinator is; the facade `combine` does the same on a
fresh node. -/
theorem combine_total_wraps (t a b : Selector) (c : String) :
    (Selector.combine t a c b).selectors = .pair a b
    ∧ (Selector.combine t a c b).combinator = c
    ∧ (cssSelectorBuilder.combine a c b).selectors = .pair a b
    ∧ (cssSelectorBuilder.combine a c b).combinator = c := by
  obtain ⟨el, idv, cls, ats, pcs, pev, comb, sel, hE, hI, hP⟩ := t
  simp [Selector.combine, cssSelectorBuilder.combine, freshSelector,
    Selector.selectors, Selector.combinator]

/-- C10: once a node holds a child pair, its rendering is determined solely
by the two children and the combinator: the element, id, class, attribute,
pseudo-class and pseudo-element fields of the node itself contribute
nothing, whatever their values. -/
theorem combined_render_ignores_parts (el idv : String) (cls ats pcs : List String)
    (pev comb : String) (a b : Selector) (hE hI hP : Bool) :
    (Selector.mk el idv cls ats pcs pev comb (.pair a b) hE hI hP).stringify
      = a.stringify ++ " " ++ comb ++ " " ++ b.stringify := by
  simp [Selector.stringify]

/-- C3 counterexample: on a node holding both an element and an id (reached
by `element "a"` then `id "b"`), a further `element` call fails with the
duplicate-part error, not the out-of-order error, although a strictly-later
category (id) has been supplied on the node. -/
theorem element_after_id_fails_duplicate_not_outOfOrder :
    BuiltByParts (Selector.mk "a" "b" [] [] [] "" "" .nil true true false)
    ∧ (Selector.mk "a" "b" [] [] [] "" "" .nil true true false).hasId = true
    ∧ (Selector.element (Selector.mk "a" "b" [] [] [] "" "" .nil true true false) "c").isOutOfOrderErr
        = false
    ∧ (Selector.element (Selector.mk "a" "b" [] [] [] "" "" .nil true true false) "c").isDuplicateErr
        = true :=
  ⟨.id (.element .fresh rfl) rfl, rfl, rfl, rfl⟩

/-- C3 amended: when the part itself has not already been supplied (the
duplicate check on `element` and `id` takes precedence), each part operation
fails with the out-of-order error exactly when a strictly-later category has
already been supplied on the node; the repeatable categories class,
attribute and pseudo-class carry no duplicate check, may be supplied
repeatedly, and a successful call keeps further calls of the same category
legal. -/
theorem outOfOrder_characterization :
    (∀ v s, (Selector.element s v).isOutOfOrderErr
        = (!s.hasElement && (s.hasId || s.classValues.length != 0
            || s.attrValues.length != 0 || s.pseudoClassValues.length != 0
            || s.hasPseudoElement)))
    ∧ (∀ v s, (Selector.id s v).isOutOfOrderErr
        = (!s.hasId && (s.classValues.length != 0 || s.attrValues.length != 0
            || s.pseudoClassValues.length != 0 || s.hasPseudoElement)))
    ∧ (∀ v s, (Selector.«class» s v).isOutOfOrderErr
        = (s.attrValues.length != 0 || s.pseudoClassValues.length != 0
            || s.hasPseudoElement))
    ∧ (∀ v s, (Selector.attr s v).isOutOfOrderErr
        = (s.pseudoClassValues.length != 0 || s.hasPseudoElement))
    ∧ (∀ v s, (Selector.pseudoClass s v).isOutOfOrderErr = s.hasPseudoElement)
    ∧ (∀ v w s s', Selector.«class» s v = .ok s' → (Selector.«class» s' w).isOk = true)
    ∧ (∀ v w s s', Selector.attr s v = .ok s' → (Selector.attr s' w).isOk = true)
    ∧ (∀ v w s s', Selector.pseudoClass s v = .ok s' →
        (Selector.pseudoClass s' w).isOk = true) := by
  refine ⟨?_, ?_, ?_, ?_, ?_, ?_, ?_, ?_⟩
  · intro v s
    obtain ⟨el, idv, cls, ats, pcs, pev, comb, sel, hE, hI, hP⟩ := s
    simp only [Selector.element, Selector.hasElement, Selector.hasId,
      Selector.classValues, Selector.attrValues, Selector.pseudoClassValues,
      Selector.hasPseudoElement]
    cases hE
    · cases hc : (hI || cls.length != 0 || ats.length != 0 || pcs.length != 0 || hP) <;>
        simp [hc, Res.isOutOfOrderErr]
    · simp [Res.isOutOfOrderErr]
  · intro v s
    obtain ⟨el, idv, cls, ats, pcs, pev, comb, sel, hE, hI, hP⟩ := s
    simp only [Selector.id, Selector.hasId, Selector.classValues,
      Selector.attrValues, Selector.pseudoClassValues, Selector.hasPseudoElement]
    cases hI
    · cases hc : (cls.length != 0 || ats.length != 0 || pcs.length != 0 || hP) <;>
        simp [hc, Res.isOutOfOrderErr]
    · simp [Res.isOutOfOrderErr]
  · intro v s
    obtain ⟨el, idv, cls, ats, pcs, pev, comb, sel, hE, hI, hP⟩ := s
    simp only [Selector.«class», Selector.attrValues, Selector.pseudoClassValues,
      Selector.hasPseudoElement]
    cases hc : (ats.length != 0 || pcs.length != 0 || hP) <;>
      simp [hc, Res.isOutOfOrderErr]
  · intro v s
    obtain ⟨el, idv, cls, ats, pcs, pev, comb, sel, hE, hI, hP⟩ := s
    simp only [Selector.attr, Selector.pseudoClassValues, Selector.hasPseudoElement]
    cases hc : (pcs.length != 0 || hP) <;> simp [hc, Res.isOutOfOrderErr]
  · intro v s
    obtain ⟨el, idv, cls, ats, pcs, pev, comb, sel, hE, hI, hP⟩ := s
    simp only [Selector.pseudoClass, Selector.hasPseudoElement]
    cases hP <;> simp [Res.isOutOfOrderErr]
  · intro v w s s' hop
    obtain ⟨el, idv, cls, ats, pcs, pev, comb, sel, hE, hI, hP⟩ := s
    simp only [Selector.«class»] at hop
    split at hop
    · exact absurd hop (by simp)
    · rename_i hc
      cases hop
      simp only [Selector.«class», Res.isOk]
      rw [if_neg hc]
  · intro v w s s' hop
    obtain ⟨el, idv, cls, ats, pcs, pev, comb, sel, hE, hI, hP⟩ := s
    simp only [Selector.attr] at hop
    split at hop
    · exact absurd hop (by simp)
    · rename_i hc
      cases hop
      simp only [Selector.attr, Res.isOk]
      rw [if_neg hc]
  · intro v w s s' hop
    obtain ⟨el, idv, cls, ats, pcs, pev, comb, sel, hE, hI, hP⟩ := s
    simp only [Selector.pseudoClass] at hop
    split at hop
    · exact absurd hop (by simp)
    · rename_i hc
      cases hop
      simp only [Selector.pseudoClass, Res.isOk]
      rw [if_neg hc]

theorem outOfOrder_characterization_witness :
    Selector.«class» freshSelector "a"
        = .ok (Selector.mk "" "" ["a"] [] [] "" "" .nil false false false)
    ∧ (Selector.«class» (Selector.mk "" "" ["a"] [] [] "" "" .nil false false false) "b").isOk
        = true :=
  ⟨rfl, outOfOrder_characterization.2.2.2.2.2.1 "a" "b" freshSelector _ rfl⟩

/-- C4: once `element`, `id` or `pseudoElement` has succeeded on a node, a
second call of the same operation on that node fails with the
duplicate-part error. -/
theorem duplicate_on_second_call :
    (∀ v w s s', Selector.element s v = .ok s' →
        (Selector.element s' w).isDuplicateErr = true)
    ∧ (∀ v w s s', Selector.id s v = .ok s' →
        (Selector.id s' w).isDuplicateErr = true)
    ∧ (∀ v w s s', Selector.pseudoElement s v = .ok s' →
        (Selector.pseudoElement s' w).isDuplicateErr = true) := by
  refine ⟨?_, ?_, ?_⟩
  · intro v w s s' hop
    obtain ⟨el, idv, cls, ats, pcs, pev, comb, sel, hE, hI, hP⟩ := s
    simp only [Selector.element] at hop
    split at hop
    · exact absurd hop (by simp)
    · split at hop
      · exact absurd hop (by simp)
      · cases hop
        simp [Selector.element, Res.isDuplicateErr]
  · intro v w s s' hop
    obtain ⟨el, idv, cls, ats, pcs, pev, comb, sel, hE, hI, hP⟩ := s
    simp only [Selector.id] at hop
    split at hop
    · exact absurd hop (by simp)
    · split at hop
      · exact absurd hop (by simp)
      · cases hop
        simp [Selector.id, Res.isDuplicateErr]
  · intro v w s s' hop
    obtain ⟨el, idv, cls, ats, pcs, pev, comb, sel, hE, hI, hP⟩ := s
    simp only [Selector.pseudoElement] at hop
    split at hop
    · exact absurd hop (by simp)
    · cases hop
      simp [Selector.pseudoElement, Res.isDuplicateErr]

theorem duplicate_on_second_call_witness :
    Selector.element freshSelector "a"
        = .ok (Selector.mk "a" "" [] [] [] "" "" .nil true false false)
    ∧ (Selector.element (Selector.mk "a" "" [] [] [] "" "" .nil true false false) "b").isDuplicateErr
        = true :=
  ⟨rfl, duplicate_on_second_call.1 "a" "b" freshSelector _ rfl⟩

/-- C5: whenever a part operation fails (with either error), the node is
left exactly in its pre-call state, so subsequent renders and legal
operations behave as if the failing call had never happened. -/
theorem err_preserves_state :
    (∀ v s e t, Selector.element s v = .err e t → t = s)
    ∧ (∀ v s e t, Selector.id s v = .err e t → t = s)
    ∧ (∀ v s e t, Selector.«class» s v = .err e t → t = s)
    ∧ (∀ v s e t, Selector.attr s v = .err e t → t = s)
    ∧ (∀ v s e t, Selector.pseudoClass s v = .err e t → t = s)
    ∧ (∀ v s e t, Selector.pseudoElement s v = .err e t → t = s) := by
  refine ⟨?_, ?_, ?_, ?_, ?_, ?_⟩ <;> intro v s e t hop <;>
    obtain ⟨el, idv, cls, ats, pcs, pev, comb, sel, hE, hI, hP⟩ := s
  · simp only [Selector.element] at hop
    split at hop
    · cases hop; rfl
    · split at hop
      · cases hop; rfl
      · exact absurd hop (by simp)
  · simp only [Selector.id] at hop
    split at hop
    · cases hop; rfl
    · split at hop
      · cases hop; rfl
      · exact absurd hop (by simp)
  · simp only [Selector.«class»] at hop
    split at hop
    · cases hop; rfl
    · exact absurd hop (by simp)
  · simp only [Selector.attr] at hop
    split at hop
    · cases hop; rfl
    · exact absurd hop (by simp)
  · simp only [Selector.pseudoClass] at hop
    split at hop
    · cases hop; rfl
    · exact absurd hop (by simp)
  · simp only [Selector.pseudoElement] at hop
    split at hop
    · cases hop; rfl
    · exact absurd hop (by simp)

theorem err_preserves_state_witness :
    Selector.element (Selector.mk "a" "" [] [] [] "" "" .nil true false false) "b"
        = .err .duplicate (Selector.mk "a" "" [] [] [] "" "" .nil true false false)
    ∧ (Selector.mk "a" "" [] [] [] "" "" .nil true false false)
        = Selector.mk "a" "" [] [] [] "" "" .nil true false false :=
  ⟨rfl, err_preserves_state.1 "b"
    (Selector.mk "a" "" [] [] [] "" "" .nil true false false) .duplicate _ rfl⟩

/-- C8: each facade entry point allocates a fresh node and applies the
mutation to it, so independently started chains share no state — in
particular `element "a"` and `element "b"` started from the facade both
succeed — and an operation invoked on an existing node returns that node
itself with only the corresponding mutation applied. -/
theorem facade_allocates_and_chains :
    (∀ v, cssSelectorBuilder.element v = Selector.element freshSelector v)
    ∧ (∀ v, cssSelectorBuilder.id v = Selector.id freshSelector v)
    ∧ (∀ v, cssSelectorBuilder.«class» v = Selector.«class» freshSelector v)
    ∧ (∀ v, cssSelectorBuilder.attr v = Selector.attr freshSelector v)
    ∧ (∀ v, cssSelectorBuilder.pseudoClass v = Selector.pseudoClass freshSelector v)
    ∧ (∀ v, cssSelectorBuilder.pseudoElement v = Selector.pseudoElement freshSelector v)
    ∧ (∀ v w, (cssSelectorBuilder.element v).isOk = true
        ∧ (cssSelectorBuilder.element w).isOk = true)
    ∧ (∀ v, (cssSelectorBuilder.id v).isOk = true)
    ∧ (∀ v, (cssSelectorBuilder.«class» v).isOk = true)
    ∧ (∀ v, (cssSelectorBuilder.attr v).isOk = true)
    ∧ (∀ v, (cssSelectorBuilder.pseudoClass v).isOk = true)
    ∧ (∀ v, (cssSelectorBuilder.pseudoElement v).isOk = true)
    ∧ (∀ v el idv cls ats pcs pev comb sel hE hI hP s',
        Selector.element (.mk el idv cls ats pcs pev comb sel hE hI hP) v = .ok s' →
          s' = .mk v idv cls ats pcs pev comb sel true hI hP)
    ∧ (∀ v el idv cls ats pcs pev comb sel hE hI hP s',
        Selector.id (.mk el idv cls ats pcs pev comb sel hE hI hP) v = .ok s' →
          s' = .mk el v cls ats pcs pev comb sel hE true hP)
    ∧ (∀ v el idv cls ats pcs pev comb sel hE hI hP s',
        Selector.«class» (.mk el idv cls ats pcs pev comb sel hE hI hP) v = .ok s' →
          s' = .mk el idv (cls ++ [v]) ats pcs pev comb sel hE hI hP)
    ∧ (∀ v el idv cls ats pcs pev comb sel hE hI hP s',
        Selector.attr (.mk el idv cls ats pcs pev comb sel hE hI hP) v = .ok s' →
          s' = .mk el idv cls (ats ++ [v]) pcs pev comb sel hE hI hP)
    ∧ (∀ v el idv cls ats pcs pev comb sel hE hI hP s',
        Selector.pseudoClass (.mk el idv cls ats pcs pev comb sel hE hI hP) v = .ok s' →
          s' = .mk el idv cls ats (pcs ++ [v]) pev comb sel hE hI hP)
    ∧ (∀ v el idv cls ats pcs pev comb sel hE hI hP s',
        Selector.pseudoElement (.mk el idv cls ats pcs pev comb sel hE hI hP) v = .ok s' →
          s' = .mk el idv cls ats pcs v comb sel hE hI true) := by
  refine ⟨fun v => rfl, fun v => rfl, fun v => rfl, fun v => rfl, fun v => rfl,
    fun v => rfl, fun v w => ⟨rfl, rfl⟩, fun v => rfl, fun v => rfl, fun v => rfl,
    fun v => rfl, fun v => rfl, ?_, ?_, ?_, ?_, ?_, ?_⟩ <;>
    intro v el idv cls ats pcs pev comb sel hE hI hP s' hop
  · simp only [Selector.element] at hop
    split at hop
    · exact absurd hop (by simp)
    · split at hop
      · exact absurd hop (by simp)
      · cases hop; rfl
  · simp only [Selector.id] at hop
    split at hop
    · exact absurd hop (by simp)
    · split at hop
      · exact absurd hop (by simp)
      · cases hop; rfl
  · simp only [Selector.«class»] at hop
    split at hop
    · exact absurd hop (by simp)
    · cases hop; rfl
  · simp only [Selector.attr] at hop
    split at hop
    · exact absurd hop (by simp)
    · cases hop; rfl
  · simp only [Selector.pseudoClass] at hop
    split at hop
    · exact absurd hop (by simp)
    · cases hop; rfl
  · simp only [Selector.pseudoElement] at hop
    split at hop
    · exact absurd hop (by simp)
    · cases hop; rfl

theorem facade_allocates_and_chains_witness :
    Selector.element (Selector.mk "" "" [] [] [] "" "" SelPair.nil false false false) "a"
        = .ok (Selector.mk "a" "" [] [] [] "" "" SelPair.nil true false false)
    ∧ (Selector.mk "a" "" [] [] [] "" "" SelPair.nil true false false)
        = Selector.mk "a" "" [] [] [] "" "" SelPair.nil true false false :=
  ⟨rfl, facade_allocates_and_chains.2.2.2.2.2.2.2.2.2.2.2.2.1
    "a" "" "" [] [] [] "" "" SelPair.nil false false false _ rfl⟩

/-- The rendering reads no `has…` flag: two nodes differing only in their
flags render identically. -/
theorem stringify_flags_irrelevant {el idv : String} {cls ats pcs : List String}
    {pev comb : String} {sel : SelPair} {h1 h2 h3 g1 g2 g3 : Bool} :
    (Selector.mk el idv cls ats pcs pev comb sel h1 h2 h3).stringify
      = (Selector.mk el idv cls ats pcs pev comb sel g1 g2 g3).stringify := by
  cases sel <;> simp [Selector.stringify]

/-- C9: duplicate detection for `element`, `id` and `pseudoElement` rests on
a per-part flag, not on the stored value: supplying the empty string still
arms the flag, so the same operation fails with the duplicate-part error
afterwards, although the empty value contributes nothing to the rendered
output (the render is unchanged by the call). -/
theorem empty_value_still_duplicate (w : String) (s s' : Selector)
    (hb : BuiltByParts s) :
    (Selector.element s "" = .ok s' →
        (Selector.element s' w).isDuplicateErr = true ∧ s'.stringify = s.stringify)
    ∧ (Selector.id s "" = .ok s' →
        (Selector.id s' w).isDuplicateErr = true ∧ s'.stringify = s.stringify)
    ∧ (Selector.pseudoElement s "" = .ok s' →
        (Selector.pseudoElement s' w).isDuplicateErr = true ∧ s'.stringify = s.stringify) := by
  obtain ⟨hsel, hel, hid, hpe⟩ := built_invariant hb
  obtain ⟨el, idv, cls, ats, pcs, pev, comb, sel, hE, hI, hP⟩ := s
  simp only [Selector.hasElement, Selector.hasId, Selector.hasPseudoElement,
    Selector.elementValue, Selector.idValue, Selector.pseudoElementValue]
    at hel hid hpe
  refine ⟨?_, ?_, ?_⟩ <;> intro hop
  · simp only [Selector.element] at hop
    split at hop
    · exact absurd hop (by simp)
    · split at hop
      · exact absurd hop (by simp)
      · rename_i hEt _
        have hE0 : hE = false := by
          cases hE
          · rfl
          · exact absurd rfl hEt
        have hel0 : el = "" := hel hE0
        cases hop
        subst hel0
        exact ⟨by simp [Selector.element, Res.isDuplicateErr], stringify_flags_irrelevant⟩
  · simp only [Selector.id] at hop
    split at hop
    · exact absurd hop (by simp)
    · split at hop
      · exact absurd hop (by simp)
      · rename_i hIt _
        have hI0 : hI = false := by
          cases hI
          · rfl
          · exact absurd rfl hIt
        have hid0 : idv = "" := hid hI0
        cases hop
        subst hid0
        exact ⟨by simp [Selector.id, Res.isDuplicateErr], stringify_flags_irrelevant⟩
  · simp only [Selector.pseudoElement] at hop
    split at hop
    · exact absurd hop (by simp)
    · rename_i hPt
      have hP0 : hP = false := by
        cases hP
        · rfl
        · exact absurd rfl hPt
      have hpe0 : pev = "" := hpe hP0
      cases hop
      subst hpe0
      exact ⟨by simp [Selector.pseudoElement, Res.isDuplicateErr], stringify_flags_irrelevant⟩

theorem empty_value_still_duplicate_witness :
    BuiltByParts freshSelector
    ∧ Selector.element freshSelector ""
        = .ok (Selector.mk "" "" [] [] [] "" "" .nil true false false)
    ∧ (Selector.element (Selector.mk "" "" [] [] [] "" "" .nil true false false) "x").isDuplicateErr
        = true
    ∧ (Selector.mk "" "" [] [] [] "" "" .nil true false false).stringify
        = freshSelector.stringify :=
  have h := (empty_value_still_duplicate "x" freshSelector
    (Selector.mk "" "" [] [] [] "" "" .nil true false false) .fresh).1 rfl
  ⟨.fresh, rfl, h.1, h.2⟩
